import Mathlib

/-!
Shallow embedding of the CRUD data-access layer in `src/database/local_db.py`.

The store is modelled as an explicit value: the list of `users` rows, the
list of `submissions` rows, and the auto-increment counter `next_user_id`
that SQLite uses to assign primary keys.  Wall-clock time
(`datetime.utcnow()`) is modelled as a `Nat` parameter `now` passed to each
operation that reads the clock.  SQLAlchemy columns without `nullable=False`
are nullable, so the counters and `display_name` are `Option`-valued in a
row; the pydantic models `UserCreate` / `UserUpdate` distinguish an unset
field from a field explicitly set to a null-like value, hence the
`Option (Option _)` fields in `UserUpdate` (outer `Option` = present in the
payload, inner = the value, possibly null).

Errors: `HTTPException 404` is `DbError.notFound`; an `IntegrityError`
raised by `session.commit()` on a violated UNIQUE constraint is
`DbError.constraintViolation` (unhandled in the Python code, it propagates).
A failed commit rolls the transaction back, so the store is unchanged on
that path.
-/

/-- Row of the `users` table (`class User` in the source). -/
structure User where
  user_id : Nat
  slack_id : String
  display_name : Option String
  total_xp : Option Int
  current_streak : Option Int
  longest_streak : Option Int
  created_at : Nat
  updated_at : Nat
deriving Repr, DecidableEq

/-- Row of the `submissions` table (`class Submission` in the source). -/
structure Submission where
  submission_id : Nat
  author_id : Nat
  created_at : Nat
deriving Repr, DecidableEq

/-- The relational store: both tables plus the primary-key counter. -/
structure Store where
  users : List User
  submissions : List Submission
  next_user_id : Nat
deriving Repr, DecidableEq

/-- Request body of `POST /users` (`class UserCreate` in the source). -/
structure UserCreate where
  slack_id : String
  display_name : Option String
deriving Repr, DecidableEq

/-- Request body of `PUT /users/\x7buser_id\x7d` (`class UserUpdate`).
A field is `none` when it is absent from the payload (pydantic
`exclude_unset`), and `some v` when it is present with value `v`, where
`v` itself may be the null-like `none`. -/
structure UserUpdate where
  total_xp : Option (Option Int)
  current_streak : Option (Option Int)
  longest_streak : Option (Option Int)
  display_name : Option (Option String)
deriving Repr, DecidableEq

/-- Errors surfaced by the handlers. -/
inductive DbError where
  | notFound
  | constraintViolation
deriving Repr, DecidableEq

/-- Handler `create_user` (`POST /users`): inserts a row with counters at
their column default 0 and both timestamps at the creation instant; a
duplicate `slack_id` makes `session.commit()` raise at the UNIQUE
constraint, inserting nothing.  Returns the result together with the
post-state of the store. -/
def create_user (payload : UserCreate) (now : Nat) (s : Store) :
    Except DbError User × Store :=
  if s.users.any (fun u => u.slack_id == payload.slack_id) then
    (Except.error DbError.constraintViolation, s)
  else
    let user : User :=
      { user_id := s.next_user_id
        slack_id := payload.slack_id
        display_name := payload.display_name
        total_xp := some 0
        current_streak := some 0
        longest_streak := some 0
        created_at := now
        updated_at := now }
    (Except.ok user,
      { s with users := s.users ++ [user], next_user_id := s.next_user_id + 1 })

/-- Handler `get_user_by_slack` (`GET /users/slack/\x7bslack_id\x7d`):
`session.query(User).filter_by(slack_id=...).first()`, 404 when no row
matches. -/
def get_user_by_slack (slack_id : String) (s : Store) : Except DbError User :=
  match s.users.find? (fun u => u.slack_id == slack_id) with
  | some u => Except.ok u
  | none => Except.error DbError.notFound

/-- Handler `get_user` (`GET /users/\x7buser_id\x7d`): primary-key lookup
`session.query(User).get(user_id)`, 404 when no row matches. -/
def get_user (user_id : Nat) (s : Store) : Except DbError User :=
  match s.users.find? (fun u => u.user_id == user_id) with
  | some u => Except.ok u
  | none => Except.error DbError.notFound

/-- The `setattr` loop of `update_user`: overwrite exactly the fields
present in `payload.dict(exclude_unset=True)`. -/
def applyUpdate (payload : UserUpdate) (u : User) : User :=
  let u1 := match payload.total_xp with
    | some v => { u with total_xp := v }
    | none => u
  let u2 := match payload.current_streak with
    | some v => { u1 with current_streak := v }
    | none => u1
  let u3 := match payload.longest_streak with
    | some v => { u2 with longest_streak := v }
    | none => u2
  match payload.display_name with
    | some v => { u3 with display_name := v }
    | none => u3

/-- Handler `update_user` (`PUT /users/\x7buser_id\x7d`): fetch by primary
key, 404 if absent; otherwise apply the fields present in the payload,
always refresh `updated_at = datetime.utcnow()`, commit, and return the
updated record.  The committed store replaces the fetched row in place. -/
def update_user (user_id : Nat) (payload : UserUpdate) (now : Nat) (s : Store) :
    Except DbError User × Store :=
  match s.users.find? (fun u => u.user_id == user_id) with
  | none => (Except.error DbError.notFound, s)
  | some u =>
    let u2 := { applyUpdate payload u with updated_at := now }
    (Except.ok u2,
      { s with users := s.users.map (fun v => if v.user_id == user_id then u2 else v) })

/-- Handler `submissions_count` (`GET /submissions/count`):
`session.query(Submission).filter_by(author_id=...).count()`. -/
def submissions_count (author_id : Nat) (s : Store) : Nat :=
  s.submissions.countP (fun b => b.author_id == author_id)

/-- The five exposed operations, with their inputs. -/
inductive Op where
  | createUser (payload : UserCreate)
  | getUserBySlack (slack_id : String)
  | getUser (user_id : Nat)
  | updateUser (user_id : Nat) (payload : UserUpdate)
  | submissionsCount (author_id : Nat)
deriving Repr, DecidableEq

/-- Value returned by an operation: a serialized user record, a count, or
an error. -/
inductive OpResult where
  | user (u : User)
  | count (n : Nat)
  | err (e : DbError)
deriving Repr, DecidableEq

/-- One request: run an operation at clock instant `now` against the store,
producing its response and the post-state of the store.  The two read-only
lookups and the count run a query and no mutation, so they return the store
they were given. -/
def runOp (op : Op) (now : Nat) (s : Store) : OpResult × Store :=
  match op with
  | Op.createUser payload =>
    match create_user payload now s with
    | (Except.ok u, s2) => (OpResult.user u, s2)
    | (Except.error e, s2) => (OpResult.err e, s2)
  | Op.getUserBySlack sid =>
    match get_user_by_slack sid s with
    | Except.ok u => (OpResult.user u, s)
    | Except.error e => (OpResult.err e, s)
  | Op.getUser uid =>
    match get_user uid s with
    | Except.ok u => (OpResult.user u, s)
    | Except.error e => (OpResult.err e, s)
  | Op.updateUser uid payload =>
    match update_user uid payload now s with
    | (Except.ok u, s2) => (OpResult.user u, s2)
    | (Except.error e, s2) => (OpResult.err e, s2)
  | Op.submissionsCount aid => (OpResult.count (submissions_count aid s), s)

/-- Session lifecycle events of one handler invocation. -/
inductive SessionEvent where
  | opened
  | closed
deriving Repr, DecidableEq

/-- The session events emitted by one handler on one input, in program
order, as written in the source: every handler begins with
`session = SessionLocal()`; `session.close()` is reached on every path of
the four non-create handlers (in `update_user` the not-found branch closes
before raising), but in `create_user` a commit that raises the UNIQUE
constraint propagates the exception before the `session.close()` line. -/
def sessionTrace (op : Op) (s : Store) : List SessionEvent :=
  match op with
  | Op.createUser payload =>
    if s.users.any (fun u => u.slack_id == payload.slack_id) then
      [SessionEvent.opened]
    else
      [SessionEvent.opened, SessionEvent.closed]
  | Op.getUserBySlack _ => [SessionEvent.opened, SessionEvent.closed]
  | Op.getUser _ => [SessionEvent.opened, SessionEvent.closed]
  | Op.updateUser _ _ => [SessionEvent.opened, SessionEvent.closed]
  | Op.submissionsCount _ => [SessionEvent.opened, SessionEvent.closed]

/-- A handler invocation releases its session when every opened session is
closed in its event trace. -/
def sessionBalanced (op : Op) (s : Store) : Bool :=
  (sessionTrace op s).count SessionEvent.closed
    == (sessionTrace op s).count SessionEvent.opened

/-- The store as it is at process start: both tables empty, SQLite rowids
starting at 1. -/
def initStore : Store := { users := [], submissions := [], next_user_id := 1 }

/-- Stores reachable from process start through the exposed operations. -/
inductive Reachable : Store → Prop where
  | init : Reachable initStore
  | step (op : Op) (now : Nat) (s : Store) :
      Reachable s → Reachable (runOp op now s).2

/-- No two rows of `users` share a `slack_id`. -/
def slackUnique (s : Store) : Prop :=
  s.users.Pairwise (fun a b => a.slack_id ≠ b.slack_id)

/-- No two rows of `users` share a `user_id`. -/
def idUnique (s : Store) : Prop :=
  s.users.Pairwise (fun a b => a.user_id ≠ b.user_id)

/-- Well-formedness maintained by the store: both key columns are unique
and every assigned `user_id` is below the auto-increment counter. -/
def Wf (s : Store) : Prop :=
  idUnique s ∧ slackUnique s ∧ ∀ u ∈ s.users, u.user_id < s.next_user_id

/-- The payload `\x7btotal_xp: 50\x7d`: only `total_xp` present. -/
def xpOnly50 : UserUpdate :=
  { total_xp := some (some 50)
    current_streak := none
    longest_streak := none
    display_name := none }

/-- A sample stored user row, used to instantiate theorems with hypotheses
at concrete inputs. -/
def aliceRow : User :=
  { user_id := 1
    slack_id := "U1"
    display_name := some "Alice"
    total_xp := some 10
    current_streak := some 2
    longest_streak := some 3
    created_at := 5
    updated_at := 5 }

/-- A sample store holding the single user `aliceRow`. -/
def store1 : Store := { users := [aliceRow], submissions := [], next_user_id := 2 }

/-- A sample store with three submissions, two of them by author 7. -/
def storeSubs : Store :=
  { users := [aliceRow]
    submissions :=
      [ { submission_id := 1, author_id := 7, created_at := 6 }
        , { submission_id := 2, author_id := 8, created_at := 7 }
        , { submission_id := 3, author_id := 7, created_at := 8 } ]
    next_user_id := 2 }

/-- A sample payload that sets `current_streak` and explicitly nulls
`display_name`, leaving the other two fields unset. -/
def mixedPatch : UserUpdate :=
  { total_xp := none
    current_streak := some (some 7)
    longest_streak := none
    display_name := some none }

/-- The record produced by a successful `update_user`: the payload applied
to the fetched row, with `updated_at` refreshed to the current instant. -/
def updatedUser (p : UserUpdate) (now : Nat) (u : User) : User :=
  { applyUpdate p u with updated_at := now }

/-- The store after a successful `update_user`: the row fetched by
`user_id` is replaced by the updated record. -/
def updStore (uid : Nat) (u2 : User) (s : Store) : Store :=
  { s with users := s.users.map (fun v => if v.user_id == uid then u2 else v) }

/-! ## Helper lemmas -/

lemma update_user_found (s : Store) (uid now : Nat) (p : UserUpdate) (u : User)
    (hfind : s.users.find? (fun v => v.user_id == uid) = some u) :
    update_user uid p now s
      = (Except.ok (updatedUser p now u), updStore uid (updatedUser p now u) s) := by
  unfold update_user updatedUser updStore
  rw [hfind]

lemma applyUpdate_user_id (p : UserUpdate) (u : User) :
    (applyUpdate p u).user_id = u.user_id := by
  rcases p with ⟨a, b, c, d⟩
  cases a <;> cases b <;> cases c <;> cases d <;> rfl

lemma applyUpdate_slack_id (p : UserUpdate) (u : User) :
    (applyUpdate p u).slack_id = u.slack_id := by
  rcases p with ⟨a, b, c, d⟩
  cases a <;> cases b <;> cases c <;> cases d <;> rfl

lemma applyUpdate_created_at (p : UserUpdate) (u : User) :
    (applyUpdate p u).created_at = u.created_at := by
  rcases p with ⟨a, b, c, d⟩
  cases a <;> cases b <;> cases c <;> cases d <;> rfl

lemma find?_user_id_none (s : Store) (uid : Nat)
    (h : ∀ u ∈ s.users, u.user_id ≠ uid) :
    s.users.find? (fun u => u.user_id == uid) = none := by
  rw [List.find?_eq_none]
  intro u hu
  simpa using h u hu

lemma find?_slack_id_none (s : Store) (sid : String)
    (h : ∀ u ∈ s.users, u.slack_id ≠ sid) :
    s.users.find? (fun u => u.slack_id == sid) = none := by
  rw [List.find?_eq_none]
  intro u hu
  simpa using h u hu

lemma any_slack_id_false (s : Store) (sid : String)
    (h : ∀ u ∈ s.users, u.slack_id ≠ sid) :
    s.users.any (fun u => u.slack_id == sid) = false := by
  rw [List.any_eq_false]
  intro u hu
  simpa using h u hu

/-! ## Theorems for the claims -/

/-- C4: fetching by an internal `user_id` present in no row, or by an
external `slack_id` present in no row, returns the not-found error and
never a default record. -/
theorem get_missing_is_not_found (s : Store) (uid : Nat) (sid : String)
    (h1 : ∀ u ∈ s.users, u.user_id ≠ uid)
    (h2 : ∀ u ∈ s.users, u.slack_id ≠ sid) :
    get_user uid s = Except.error DbError.notFound ∧
    get_user_by_slack sid s = Except.error DbError.notFound := by
  constructor
  · unfold get_user
    rw [find?_user_id_none s uid h1]
  · unfold get_user_by_slack
    rw [find?_slack_id_none s sid h2]

/-- C4 witness: fetching `user_id` 999999 or `slack_id` "missing" in the
empty initial store is a not-found error. -/
theorem get_missing_is_not_found_witness :
    get_user 999999 initStore = Except.error DbError.notFound ∧
    get_user_by_slack "missing" initStore = Except.error DbError.notFound :=
  get_missing_is_not_found initStore 999999 "missing"
    (by intro u hu; simp [initStore] at hu) (by intro u hu; simp [initStore] at hu)

/-- C3: updating a `user_id` present in no row returns the not-found error
and leaves the whole store untouched. -/
theorem update_missing_is_not_found (s : Store) (uid now : Nat) (p : UserUpdate)
    (h : ∀ u ∈ s.users, u.user_id ≠ uid) :
    runOp (Op.updateUser uid p) now s = (OpResult.err DbError.notFound, s) := by
  simp [runOp, update_user, find?_user_id_none s uid h]

/-- C3 witness: updating user 42 in a store that only holds user 1 is a
not-found error with the store unchanged. -/
theorem update_missing_is_not_found_witness :
    runOp (Op.updateUser 42 xpOnly50) 9 store1 = (OpResult.err DbError.notFound, store1) :=
  update_missing_is_not_found store1 42 9 xpOnly50
    (by intro u hu; simp [store1] at hu; simp [hu, aliceRow])

/-- C10: the two lookups and the submission count leave the store state
unchanged on every input, on the success path and the not-found path
alike. -/
theorem read_ops_preserve_store (s : Store) (now uid aid : Nat) (sid : String) :
    (runOp (Op.getUser uid) now s).2 = s ∧
    (runOp (Op.getUserBySlack sid) now s).2 = s ∧
    (runOp (Op.submissionsCount aid) now s).2 = s := by
  refine ⟨?_, ?_, rfl⟩
  · cases h : get_user uid s <;> simp [runOp, h]
  · cases h : get_user_by_slack sid s <;> simp [runOp, h]

/-- C5: the submission count is exactly the number of `submissions` rows
whose `author_id` matches; it is 0 (not an error) when nothing matches,
and it never consults the `users` table, so an unknown author also yields
0. -/
theorem submissions_count_exact (aid : Nat) (s : Store) (now : Nat) :
    runOp (Op.submissionsCount aid) now s
      = (OpResult.count ((s.submissions.filter (fun b => b.author_id == aid)).length), s) ∧
    ((∀ b ∈ s.submissions, b.author_id ≠ aid) → submissions_count aid s = 0) ∧
    (∀ otherUsers : List User,
      submissions_count aid { s with users := otherUsers } = submissions_count aid s) := by
  refine ⟨?_, ?_, fun _ => rfl⟩
  · simp [runOp, submissions_count, List.countP_eq_length_filter]
  · intro h
    unfold submissions_count
    rw [List.countP_eq_length_filter]
    have : s.submissions.filter (fun b => b.author_id == aid) = [] := by
      rw [List.filter_eq_nil_iff]
      intro b hb
      simpa using h b hb
    rw [this]
    rfl

/-- C5 witness: in the sample store the count for author 7 is exactly the
2 matching rows, and for author 9, who has no rows and is no user, it is
0. -/
theorem submissions_count_exact_witness :
    runOp (Op.submissionsCount 7) 0 storeSubs = (OpResult.count 2, storeSubs) ∧
    submissions_count 9 storeSubs = 0 := by
  constructor
  · have h := (submissions_count_exact 7 storeSubs 0).1
    simpa [storeSubs] using h
  · exact (submissions_count_exact 9 storeSubs 0).2.1
      (by intro b hb; simp [storeSubs] at hb; rcases hb with h | h | h <;> simp [h])

/-- C1: creating a user with a fresh `slack_id` S and name D, then
fetching by S, returns a record with `slack_id = S`, `display_name = D`,
all three counters at 0, and `created_at = updated_at` at the creation
instant. -/
theorem create_then_get_by_slack (p : UserCreate) (now : Nat) (s : Store)
    (h : ∀ u ∈ s.users, u.slack_id ≠ p.slack_id) :
    ∃ u s2, create_user p now s = (Except.ok u, s2) ∧
      get_user_by_slack p.slack_id s2 = Except.ok u ∧
      u.slack_id = p.slack_id ∧
      u.display_name = p.display_name ∧
      u.total_xp = some 0 ∧
      u.current_streak = some 0 ∧
      u.longest_streak = some 0 ∧
      u.created_at = u.updated_at := by
  have hany := any_slack_id_false s p.slack_id h
  have hnone := find?_slack_id_none s p.slack_id h
  let nu : User :=
    { user_id := s.next_user_id
      slack_id := p.slack_id
      display_name := p.display_name
      total_xp := some 0
      current_streak := some 0
      longest_streak := some 0
      created_at := now
      updated_at := now }
  refine ⟨nu, { s with users := s.users ++ [nu], next_user_id := s.next_user_id + 1 },
    ?_, ?_, rfl, rfl, rfl, rfl, rfl, rfl⟩
  · unfold create_user
    rw [hany]
    rfl
  · unfold get_user_by_slack
    simp only [List.find?_append, hnone, Option.none_or, List.find?_cons]
    simp

/-- C1 witness: create slack id "U7" with name "Dana" at instant 3 in the
empty store, then fetch by "U7". -/
theorem create_then_get_by_slack_witness :
    ∃ u s2, create_user (UserCreate.mk "U7" (some "Dana")) 3 initStore = (Except.ok u, s2) ∧
      get_user_by_slack "U7" s2 = Except.ok u ∧
      u.slack_id = "U7" ∧
      u.display_name = some "Dana" ∧
      u.total_xp = some 0 ∧
      u.current_streak = some 0 ∧
      u.longest_streak = some 0 ∧
      u.created_at = u.updated_at :=
  create_then_get_by_slack (UserCreate.mk "U7" (some "Dana")) 3 initStore
    (by intro u hu; simp [initStore] at hu)

/-- C2: updating an existing user with the payload containing only
`total_xp = 50` sets `total_xp` to 50, leaves the two streak counters and
the display name unchanged, and, the clock having advanced past the stored
`updated_at`, sets `updated_at` strictly above its previous value. -/
theorem update_xp_only (s : Store) (uid now : Nat) (u : User)
    (hfind : s.users.find? (fun v => v.user_id == uid) = some u)
    (hnow : u.updated_at < now) :
    ∃ u2 s2, update_user uid xpOnly50 now s = (Except.ok u2, s2) ∧
      u2.total_xp = some 50 ∧
      u2.current_streak = u.current_streak ∧
      u2.longest_streak = u.longest_streak ∧
      u2.display_name = u.display_name ∧
      u.updated_at < u2.updated_at := by
  refine ⟨updatedUser xpOnly50 now u, updStore uid (updatedUser xpOnly50 now u) s,
    update_user_found s uid now xpOnly50 u hfind, ?_, ?_, ?_, ?_, ?_⟩
  · simp [updatedUser, applyUpdate, xpOnly50]
  · simp [updatedUser, applyUpdate, xpOnly50]
  · simp [updatedUser, applyUpdate, xpOnly50]
  · simp [updatedUser, applyUpdate, xpOnly50]
  · exact hnow

/-- C2 witness: updating user 1 of the sample store with only
`total_xp = 50` at instant 9. -/
theorem update_xp_only_witness :
    ∃ u2 s2, update_user 1 xpOnly50 9 store1 = (Except.ok u2, s2) ∧
      u2.total_xp = some 50 ∧
      u2.current_streak = aliceRow.current_streak ∧
      u2.longest_streak = aliceRow.longest_streak ∧
      u2.display_name = aliceRow.display_name ∧
      aliceRow.updated_at < u2.updated_at :=
  update_xp_only store1 1 9 aliceRow (by rfl) (by decide)

/-- C6: a successful update applies exactly the fields present in the
payload: an absent field leaves the stored attribute untouched, a present
field is applied even when its value is null-like, `updated_at` is always
refreshed to the current instant, and the full updated record is returned
together with the store in which it replaced the fetched row. -/
theorem update_exclude_unset (s : Store) (uid now : Nat) (p : UserUpdate) (u : User)
    (hfind : s.users.find? (fun v => v.user_id == uid) = some u) :
    ∃ u2, update_user uid p now s
        = (Except.ok u2,
           { s with users := s.users.map (fun v => if v.user_id == uid then u2 else v) }) ∧
      (p.total_xp = none → u2.total_xp = u.total_xp) ∧
      (∀ v, p.total_xp = some v → u2.total_xp = v) ∧
      (p.current_streak = none → u2.current_streak = u.current_streak) ∧
      (∀ v, p.current_streak = some v → u2.current_streak = v) ∧
      (p.longest_streak = none → u2.longest_streak = u.longest_streak) ∧
      (∀ v, p.longest_streak = some v → u2.longest_streak = v) ∧
      (p.display_name = none → u2.display_name = u.display_name) ∧
      (∀ v, p.display_name = some v → u2.display_name = v) ∧
      u2.updated_at = now := by
  refine ⟨updatedUser p now u, ?_, ?_, ?_, ?_, ?_, ?_, ?_, ?_, ?_, rfl⟩
  · exact update_user_found s uid now p u hfind
  all_goals rcases p with ⟨a, b, c, d⟩
  all_goals cases a <;> cases b <;> cases c <;> cases d <;>
    simp_all [updatedUser, applyUpdate]

/-- C6 witness: a payload that sets `current_streak` to 7 and explicitly
nulls `display_name`, leaving `total_xp` and `longest_streak` unset. -/
theorem update_exclude_unset_witness :
    ∃ u2, update_user 1 mixedPatch 9 store1
        = (Except.ok u2,
           { store1 with
              users := store1.users.map (fun v => if v.user_id == 1 then u2 else v) }) ∧
      (mixedPatch.total_xp = none → u2.total_xp = aliceRow.total_xp) ∧
      (∀ v, mixedPatch.total_xp = some v → u2.total_xp = v) ∧
      (mixedPatch.current_streak = none → u2.current_streak = aliceRow.current_streak) ∧
      (∀ v, mixedPatch.current_streak = some v → u2.current_streak = v) ∧
      (mixedPatch.longest_streak = none → u2.longest_streak = aliceRow.longest_streak) ∧
      (∀ v, mixedPatch.longest_streak = some v → u2.longest_streak = v) ∧
      (mixedPatch.display_name = none → u2.display_name = aliceRow.display_name) ∧
      (∀ v, mixedPatch.display_name = some v → u2.display_name = v) ∧
      u2.updated_at = 9 :=
  update_exclude_unset store1 1 9 mixedPatch aliceRow (by rfl)

/-- C9: a successful update never changes `user_id`, `slack_id` or
`created_at`: the returned record keeps those three fields of the fetched
row, and every row of the post-state keeps the identity fields of a row of
the pre-state; the submissions table and the key counter are untouched. -/
theorem update_preserves_identity (s : Store) (uid now : Nat) (p : UserUpdate) (u : User)
    (hfind : s.users.find? (fun v => v.user_id == uid) = some u) :
    ∃ u2 s2, update_user uid p now s = (Except.ok u2, s2) ∧
      u2.user_id = u.user_id ∧
      u2.slack_id = u.slack_id ∧
      u2.created_at = u.created_at ∧
      s2.submissions = s.submissions ∧
      s2.next_user_id = s.next_user_id ∧
      ∀ v ∈ s2.users, ∃ w ∈ s.users,
        v.user_id = w.user_id ∧ v.slack_id = w.slack_id ∧ v.created_at = w.created_at := by
  have hmem : u ∈ s.users := List.mem_of_find?_eq_some hfind
  refine ⟨updatedUser p now u, updStore uid (updatedUser p now u) s,
    update_user_found s uid now p u hfind, ?_, ?_, ?_, rfl, rfl, ?_⟩
  · exact applyUpdate_user_id p u
  · exact applyUpdate_slack_id p u
  · exact applyUpdate_created_at p u
  · intro v hv
    simp only [updStore, List.mem_map] at hv
    obtain ⟨w, hw, hvw⟩ := hv
    by_cases hc : (w.user_id == uid) = true
    · rw [if_pos hc] at hvw
      refine ⟨u, hmem, ?_⟩
      rw [← hvw]
      exact ⟨applyUpdate_user_id p u, applyUpdate_slack_id p u, applyUpdate_created_at p u⟩
    · rw [if_neg hc] at hvw
      refine ⟨w, hw, ?_⟩
      rw [← hvw]
      exact ⟨rfl, rfl, rfl⟩

/-- C9 witness: updating user 1 of the sample store with the mixed payload
keeps `user_id`, `slack_id` and `created_at`. -/
theorem update_preserves_identity_witness :
    ∃ u2 s2, update_user 1 mixedPatch 9 store1 = (Except.ok u2, s2) ∧
      u2.user_id = aliceRow.user_id ∧
      u2.slack_id = aliceRow.slack_id ∧
      u2.created_at = aliceRow.created_at ∧
      s2.submissions = store1.submissions ∧
      s2.next_user_id = store1.next_user_id ∧
      ∀ v ∈ s2.users, ∃ w ∈ store1.users,
        v.user_id = w.user_id ∧ v.slack_id = w.slack_id ∧ v.created_at = w.created_at :=
  update_preserves_identity store1 1 9 mixedPatch aliceRow (by rfl)

/-- C7 counterexample: creating a user whose `slack_id` "U1" already
exists in the sample store makes the commit raise before the close line,
so the opened session is never closed — the claim that every operation
releases its session on every path, constraint-violating commits included,
is false. -/
theorem session_release_counterexample :
    sessionBalanced (Op.createUser (UserCreate.mk "U1" none)) store1 = false := by
  decide

/-- C7 amended: every operation releases its session before returning on
the success and not-found paths; for Create User this additionally
requires that no stored row already holds the requested `slack_id`, since
a constraint-violating commit propagates before the close. -/
theorem session_release_amended (op : Op) (s : Store)
    (h : ∀ p, op = Op.createUser p → ∀ u ∈ s.users, u.slack_id ≠ p.slack_id) :
    sessionBalanced op s = true := by
  cases op with
  | createUser p =>
    have hany := any_slack_id_false s p.slack_id (h p rfl)
    simp [sessionBalanced, sessionTrace, hany]
  | getUserBySlack sid => rfl
  | getUser uid => rfl
  | updateUser uid q => rfl
  | submissionsCount aid => rfl

/-- C7 amended witness: creating the fresh slack id "U9" against the
sample store releases its session, as does a lookup. -/
theorem session_release_amended_witness :
    sessionBalanced (Op.createUser (UserCreate.mk "U9" none)) store1 = true :=
  session_release_amended (Op.createUser (UserCreate.mk "U9" none)) store1
    (by
      intro p hp u hu
      cases hp
      simp [store1] at hu
      subst hu
      decide)

lemma updatedUser_user_id (p : UserUpdate) (now : Nat) (u : User) :
    (updatedUser p now u).user_id = u.user_id :=
  applyUpdate_user_id p u

lemma updatedUser_slack_id (p : UserUpdate) (now : Nat) (u : User) :
    (updatedUser p now u).slack_id = u.slack_id :=
  applyUpdate_slack_id p u

lemma pairwise_ne_map {β : Type} (g : User → β) (f : User → User) (l : List User)
    (hf : ∀ v ∈ l, g (f v) = g v)
    (h : l.Pairwise (fun a b => g a ≠ g b)) :
    (l.map f).Pairwise (fun a b => g a ≠ g b) := by
  induction l with
  | nil => simp
  | cons a t ih =>
    rw [List.map_cons, List.pairwise_cons]
    rw [List.pairwise_cons] at h
    obtain ⟨ha, ht⟩ := h
    constructor
    · intro b hb
      obtain ⟨c, hc, rfl⟩ := List.mem_map.mp hb
      rw [hf a (List.mem_cons_self a t), hf c (List.mem_cons_of_mem a hc)]
      exact ha c hc
    · exact ih (fun v hv => hf v (List.mem_cons_of_mem a hv)) ht

lemma eq_of_pairwise_ne {β : Type} (g : User → β) {l : List User} {a b : User}
    (h : l.Pairwise (fun x y => g x ≠ g y))
    (ha : a ∈ l) (hb : b ∈ l) (hg : g a = g b) : a = b := by
  induction l with
  | nil => cases ha
  | cons c t ih =>
    rw [List.pairwise_cons] at h
    obtain ⟨hc, ht⟩ := h
    rcases List.mem_cons.mp ha with rfl | ha2
    · rcases List.mem_cons.mp hb with rfl | hb2
      · rfl
      · exact absurd hg (hc b hb2)
    · rcases List.mem_cons.mp hb with rfl | hb2
      · exact absurd hg.symm (hc a ha2)
      · exact ih ht ha2 hb2

lemma wf_create (p : UserCreate) (now : Nat) (s : Store) (h : Wf s) :
    Wf (create_user p now s).2 := by
  obtain ⟨hid, hslack, hbound⟩ := h
  cases hany : s.users.any (fun u => u.slack_id == p.slack_id) with
  | true =>
    simp only [create_user, hany, if_true]
    exact ⟨hid, hslack, hbound⟩
  | false =>
    have hfresh : ∀ u ∈ s.users, u.slack_id ≠ p.slack_id := by
      intro u hu
      have := List.any_eq_false.mp hany u hu
      simpa using this
    simp only [create_user, hany, Bool.false_eq_true, if_false]
    refine ⟨?_, ?_, ?_⟩
    · unfold idUnique
      rw [List.pairwise_append]
      refine ⟨hid, by simp, ?_⟩
      intro a ha b hb
      simp only [List.mem_singleton] at hb
      subst hb
      have := hbound a ha
      show a.user_id ≠ s.next_user_id
      omega
    · unfold slackUnique
      rw [List.pairwise_append]
      refine ⟨hslack, by simp, ?_⟩
      intro a ha b hb
      simp only [List.mem_singleton] at hb
      subst hb
      exact hfresh a ha
    · intro u hu
      show u.user_id < s.next_user_id + 1
      rcases List.mem_append.mp hu with h1 | h1
      · have := hbound u h1
        omega
      · simp only [List.mem_singleton] at h1
        subst h1
        show s.next_user_id < s.next_user_id + 1
        omega

lemma wf_update (uid now : Nat) (p : UserUpdate) (s : Store) (h : Wf s) :
    Wf (update_user uid p now s).2 := by
  obtain ⟨hid, hslack, hbound⟩ := h
  cases hfind : s.users.find? (fun v => v.user_id == uid) with
  | none =>
    unfold update_user
    rw [hfind]
    exact ⟨hid, hslack, hbound⟩
  | some u =>
    rw [update_user_found s uid now p u hfind]
    have hu_mem : u ∈ s.users := List.mem_of_find?_eq_some hfind
    have hu_id : u.user_id = uid := by simpa using List.find?_some hfind
    have hfid : ∀ v ∈ s.users,
        ((fun v => if v.user_id == uid then updatedUser p now u else v) v).user_id
          = v.user_id := by
      intro v hv
      by_cases hcv : (v.user_id == uid) = true
      · have hvid : v.user_id = uid := by simpa using hcv
        show (if (v.user_id == uid) = true then updatedUser p now u else v).user_id = v.user_id
        rw [if_pos hcv, updatedUser_user_id, hu_id, hvid]
      · simp [hcv]
    have hfslack : ∀ v ∈ s.users,
        ((fun v => if v.user_id == uid then updatedUser p now u else v) v).slack_id
          = v.slack_id := by
      intro v hv
      by_cases hcv : (v.user_id == uid) = true
      · have hvid : v.user_id = uid := by simpa using hcv
        have hveq : v = u :=
          eq_of_pairwise_ne (fun x => x.user_id) hid hv hu_mem
            (by show v.user_id = u.user_id; rw [hvid, hu_id])
        show (if (v.user_id == uid) = true then updatedUser p now u else v).slack_id = v.slack_id
        rw [if_pos hcv, updatedUser_slack_id, hveq]
      · simp [hcv]
    refine ⟨?_, ?_, ?_⟩
    · exact pairwise_ne_map (fun x => x.user_id) _ s.users hfid hid
    · exact pairwise_ne_map (fun x => x.slack_id) _ s.users hfslack hslack
    · intro v hv
      obtain ⟨w, hw, rfl⟩ := List.mem_map.mp hv
      rw [hfid w hw]
      exact hbound w hw

lemma runOp_snd (op : Op) (now : Nat) (s : Store) :
    (runOp op now s).2 =
      match op with
      | Op.createUser p => (create_user p now s).2
      | Op.updateUser uid p => (update_user uid p now s).2
      | _ => s := by
  cases op with
  | createUser p =>
    rcases h : create_user p now s with ⟨r, s2⟩
    cases r <;> simp [runOp, h]
  | updateUser uid p =>
    rcases h : update_user uid p now s with ⟨r, s2⟩
    cases r <;> simp [runOp, h]
  | getUserBySlack sid => cases h : get_user_by_slack sid s <;> simp [runOp, h]
  | getUser uid => cases h : get_user uid s <;> simp [runOp, h]
  | submissionsCount aid => rfl

lemma reachable_wf (s : Store) (h : Reachable s) : Wf s := by
  induction h with
  | init =>
    refine ⟨List.Pairwise.nil, List.Pairwise.nil, ?_⟩
    intro u hu
    cases hu
  | step op now s2 _ ih =>
    rw [runOp_snd]
    cases op with
    | createUser p => exact wf_create p now s2 ih
    | updateUser uid p => exact wf_update uid now p s2 ih
    | getUserBySlack sid => exact ih
    | getUser uid => exact ih
    | submissionsCount aid => exact ih

/-- C8: in every store state reachable through the exposed operations no
two `users` rows share a `slack_id`, and creating a user whose `slack_id`
already has a row fails at the uniqueness constraint, leaving the store
unchanged — so the invariant is preserved by every operation. -/
theorem slack_id_unique_invariant (s : Store) (h : Reachable s) :
    slackUnique s ∧
    ∀ p now, (∃ u ∈ s.users, u.slack_id = p.slack_id) →
      runOp (Op.createUser p) now s = (OpResult.err DbError.constraintViolation, s) := by
  refine ⟨(reachable_wf s h).2.1, ?_⟩
  intro p now hex
  obtain ⟨u, hu, he⟩ := hex
  have hany : s.users.any (fun v => v.slack_id == p.slack_id) = true := by
    rw [List.any_eq_true]
    exact ⟨u, hu, by simp [he]⟩
  simp [runOp, create_user, hany]

/-- C8 witness: after creating "U1" in the empty store, the reachable
one-row store has pairwise distinct slack ids, and creating "U1" again
fails with the constraint violation and no inserted row. -/
theorem slack_id_unique_invariant_witness :
    slackUnique (runOp (Op.createUser (UserCreate.mk "U1" none)) 5 initStore).2 ∧
    runOp (Op.createUser (UserCreate.mk "U1" none)) 7
        (runOp (Op.createUser (UserCreate.mk "U1" none)) 5 initStore).2
      = (OpResult.err DbError.constraintViolation,
         (runOp (Op.createUser (UserCreate.mk "U1" none)) 5 initStore).2) := by
  have h := slack_id_unique_invariant
    (runOp (Op.createUser (UserCreate.mk "U1" none)) 5 initStore).2
    (Reachable.step (Op.createUser (UserCreate.mk "U1" none)) 5 initStore Reachable.init)
  refine ⟨h.1, h.2 (UserCreate.mk "U1" none) 7 ?_⟩
  refine ⟨{ user_id := 1
            slack_id := "U1"
            display_name := none
            total_xp := some 0
            current_streak := some 0
            longest_streak := some 0
            created_at := 5
            updated_at := 5 }, ?_, rfl⟩
  decide
